import Mathlib

/-!
Verification development for the portfolio optimization core of the
Efficient Portfolio Optimizer (src/app.py).

The return matrix is embedded as a function `R : Fin T → Fin n → ℝ`
(T dates, n instruments), a weight vector as `w : Fin n → ℝ`.  All numpy
float arithmetic is modelled over the real numbers.  The two external
numeric collaborators are modelled at their interfaces:

* `scipy.optimize.minimize` (method SLSQP) is an oracle returning an
  `SLSQPResult` (a convergence flag plus a point); the code under
  verification only inspects `result.success` and passes `result.x`
  through, which is exactly what the embedding does.
* numpy's global pseudo-random generator is modelled as a deterministic
  linear congruential generator over a natural-number state; the claims
  about the random cloud depend only on determinism of the stream, the
  `[0,1)` range of each draw, and sequential consumption — not on the
  specific Mersenne-Twister values.
-/

noncomputable section

/-- Result dictionary of `calculate_portfolio_metrics` (src/app.py lines 106-110):
`return`, `risk` and `sharpe` keys (`return` is a keyword, hence `ret`). -/
structure Metrics where
  ret : ℝ
  risk : ℝ
  sharpe : ℝ

/-- `returns_df.mean()` for one column: mean of the T observations. -/
def colMean {T n : ℕ} (R : Fin T → Fin n → ℝ) (j : Fin n) : ℝ :=
  (∑ t, R t j) / T

/-- `returns_df.cov()` entry (pandas sample covariance, denominator T - 1). -/
def sampleCov {T n : ℕ} (R : Fin T → Fin n → ℝ) (i j : Fin n) : ℝ :=
  (∑ t, (R t i - colMean R i) * (R t j - colMean R j)) / ((T : ℝ) - 1)

/-- src/app.py line 102: `np.sum(returns_df.mean() * weights) * 252`. -/
def portfolioReturn {T n : ℕ} (w : Fin n → ℝ) (R : Fin T → Fin n → ℝ) : ℝ :=
  (∑ j, colMean R j * w j) * 252

/-- src/app.py line 103:
`np.sqrt(np.dot(weights.T, np.dot(returns_df.cov() * 252, weights)))`.
The inner `np.dot` is the matrix-vector product of the scaled covariance
with the weights; the outer one contracts with the weights again. -/
def portfolioStd {T n : ℕ} (w : Fin n → ℝ) (R : Fin T → Fin n → ℝ) : ℝ :=
  Real.sqrt (∑ i, w i * (∑ j, sampleCov R i j * 252 * w j))

/-- src/app.py lines 100-110, `calculate_portfolio_metrics`: the return and
risk are scaled to percentages; the Sharpe ratio divides the excess decimal
return over the hardcoded 6% risk-free rate by the decimal risk, with no
guard against a zero denominator. -/
def calculate_portfolio_metrics {T n : ℕ} (w : Fin n → ℝ) (R : Fin T → Fin n → ℝ) :
    Metrics :=
  ⟨portfolioReturn w R * 100, portfolioStd w R * 100,
    (portfolioReturn w R - 0.06) / portfolioStd w R⟩

/-- Spec-side formula (spec.md section 4.2): annual return is
`sum(mean(column_i) * weight_i) * 252`, expressed as a percentage. -/
def specAnnualReturnPct {T n : ℕ} (w : Fin n → ℝ) (R : Fin T → Fin n → ℝ) : ℝ :=
  (∑ j, colMean R j * w j) * 252 * 100

/-- Spec-side formula (spec.md section 4.2): annual risk is
`sqrt(weights^t * Sigma * weights)` with Sigma the sample covariance matrix
scaled by 252, expressed as a percentage. -/
def specAnnualRiskPct {T n : ℕ} (w : Fin n → ℝ) (R : Fin T → Fin n → ℝ) : ℝ :=
  Real.sqrt (∑ i, ∑ j, w i * (sampleCov R i j * 252) * w j) * 100

/-- Spec-side formula (spec.md section 4.2): Sharpe ratio is
`(annualReturn - riskFreeRate) / annualRisk` with a 6% risk-free rate, both
arguments taken in the percentage convention of the two formulas above. -/
def specSharpe {T n : ℕ} (w : Fin n → ℝ) (R : Fin T → Fin n → ℝ) : ℝ :=
  (specAnnualReturnPct w R - 6) / specAnnualRiskPct w R

/-- Outcome of one `scipy.optimize.minimize(..., method='SLSQP', ...)` call
(src/app.py lines 127-128 and 136-137): the code only reads the
`success` flag and the solution point `x`. -/
structure SLSQPResult (n : ℕ) where
  success : Bool
  x : Fin n → ℝ

/-- The equality-constraint function handed to the solver
(src/app.py line 117): `lambda x: np.sum(x) - 1`. -/
def sumConstraintFun {n : ℕ} (x : Fin n → ℝ) : ℝ := (∑ i, x i) - 1

/-- The initial guess handed to the solver (src/app.py line 119):
`np.array([1/n_assets] * n_assets)`. -/
def initialWeights (n : ℕ) : Fin n → ℝ := fun _ => 1 / (n : ℝ)

/-- Contract of the SLSQP oracle: on reported convergence the returned point
satisfies the `(0, 1)` bounds (src/app.py line 118) and the sum-to-one
equality constraint within the solver tolerance `1e-6`. -/
def MeetsSLSQPConstraints {n : ℕ} (r : SLSQPResult n) : Prop :=
  r.success = true →
    |sumConstraintFun r.x| ≤ 1e-6 ∧ ∀ i, 0 ≤ r.x i ∧ r.x i ≤ 1

/-- src/app.py lines 112-144, `optimize_portfolio`.  The two solver
invocations (one per objective closure) are the oracle arguments `oSharpe`
and `oMinRisk`; the function returns `result.x` on success, `None` on
non-convergence, and `None` for any other `optimization_type`. -/
def optimize_portfolio {n : ℕ} (oSharpe oMinRisk : SLSQPResult n)
    (optimization_type : String) : Option (Fin n → ℝ) :=
  if optimization_type = "sharpe" then
    if oSharpe.success then some oSharpe.x else none
  else if optimization_type = "min_risk" then
    if oMinRisk.success then some oMinRisk.x else none
  else
    none

/-- Step of the model of numpy's global pseudo-random generator: a linear
congruential generator on a 32-bit natural state (stand-in for the Mersenne
Twister; the claims depend only on determinism, range and consumption
order of the stream, never on particular values). -/
def lcg (s : ℕ) : ℕ := (1664525 * s + 1013904223) % 4294967296

/-- `np.random.seed(s)` (src/app.py line 151): replaces the incoming global
generator state `gs` by a state depending only on `s`. -/
def seedReset (s gs : ℕ) : ℕ := s

/-- The j-th component of the i-th `np.random.random(n_assets)` draw of the
cloud loop (src/app.py lines 157-158): the loop consumes `n` fresh uniform
`[0,1)` floats per iteration from the stream seeded at 42. -/
def cloudDraw (gs n i j : ℕ) : ℝ :=
  ((lcg^[i * n + j + 1] (seedReset 42 gs) : ℕ) : ℝ) / 4294967296

/-- src/app.py line 159: `weights /= np.sum(weights)` — the i-th random
portfolio of the cloud, each raw draw divided by the sum of its own vector. -/
def cloudWeight (gs n i : ℕ) : Fin n → ℝ :=
  fun j => cloudDraw gs n i j.1 / ∑ j' : Fin n, cloudDraw gs n i j'.1

/-- src/app.py line 160: metrics of the i-th random portfolio. -/
def cloudMetricsAt (gs : ℕ) {T n : ℕ} (R : Fin T → Fin n → ℝ) (i : ℕ) : Metrics :=
  calculate_portfolio_metrics (cloudWeight gs n i) R

/-- `min(random_returns)` over the 1000 cloud portfolios (src/app.py line 175). -/
def cloudMinReturn (gs : ℕ) {T n : ℕ} (R : Fin T → Fin n → ℝ) : ℝ :=
  Finset.univ.inf' Finset.univ_nonempty fun i : Fin 1000 => (cloudMetricsAt gs R i.1).ret

/-- `max(random_returns)` over the 1000 cloud portfolios (src/app.py line 175). -/
def cloudMaxReturn (gs : ℕ) {T n : ℕ} (R : Fin T → Fin n → ℝ) : ℝ :=
  Finset.univ.sup' Finset.univ_nonempty fun i : Fin 1000 => (cloudMetricsAt gs R i.1).ret

/-- The k-th entry of `np.linspace(min(random_returns), max(random_returns),
n_portfolios)` (src/app.py line 175). -/
def frontierTarget (gs : ℕ) {T n : ℕ} (R : Fin T → Fin n → ℝ) (nP k : ℕ) : ℝ :=
  cloudMinReturn gs R
    + (k : ℝ) * ((cloudMaxReturn gs R - cloudMinReturn gs R) / ((nP : ℝ) - 1))

/-- The `random` section of the frontier result (src/app.py lines 201-205). -/
structure RandomSection where
  returns : List ℝ
  risks : List ℝ
  sharpes : List ℝ

/-- The `frontier` section of the frontier result (src/app.py lines 206-209):
one target return and one optional risk per curve point (`None` when the
target-return solve did not converge). -/
structure FrontierSection where
  returns : List ℝ
  risks : List (Option ℝ)

/-- One named optimal portfolio in the `optimal` section (src/app.py 210-227). -/
structure OptimalEntry where
  weights : List ℝ
  metrics : Metrics

/-- The dictionary returned by `generate_efficient_frontier` (src/app.py 200-228). -/
structure FrontierResult where
  random : RandomSection
  frontier : FrontierSection
  maxSharpe : OptimalEntry
  minRisk : OptimalEntry

/-- src/app.py lines 157-165 assembled into the `random` section. -/
def randomCloudSection (gs : ℕ) {T n : ℕ} (R : Fin T → Fin n → ℝ) : RandomSection :=
  { returns := (List.range 1000).map fun i => (cloudMetricsAt gs R i).ret
  , risks := (List.range 1000).map fun i => (cloudMetricsAt gs R i).risk
  , sharpes := (List.range 1000).map fun i => (cloudMetricsAt gs R i).sharpe }

/-- src/app.py lines 175-198: the frontier curve.  For each of the `nP`
evenly spaced targets the constrained risk minimisation is an oracle call
`oTgt`; a convergent solve contributes its risk, a failed one contributes
`None` — the entry is recorded either way. -/
def frontierCurveSection (gs : ℕ) {T n : ℕ} (R : Fin T → Fin n → ℝ)
    (oTgt : ℝ → SLSQPResult n) (nP : ℕ) : FrontierSection :=
  { returns := (List.range nP).map fun k => frontierTarget gs R nP k
  , risks := (List.range nP).map fun k =>
      if (oTgt (frontierTarget gs R nP k)).success then
        some (calculate_portfolio_metrics (oTgt (frontierTarget gs R nP k)).x R).risk
      else none }

/-- src/app.py lines 146-228, `generate_efficient_frontier`.  The incoming
numpy global-generator state is `gs` (immediately overwritten by
`np.random.seed(42)`); `oSharpe`, `oMinRisk` and `oTgt` are the SLSQP
oracle outcomes for the two anchor solves and the per-target solves.  When
an anchor solve returns `None`, line 171/172 calls
`calculate_portfolio_metrics(None, ...)`, which raises a `TypeError` that
the `/analyze` route reports as a request-level error. -/
def generate_efficient_frontier (gs : ℕ) {T n : ℕ} (R : Fin T → Fin n → ℝ)
    (oSharpe oMinRisk : SLSQPResult n) (oTgt : ℝ → SLSQPResult n) (nP : ℕ) :
    Except String FrontierResult :=
  match optimize_portfolio oSharpe oMinRisk "sharpe",
      optimize_portfolio oSharpe oMinRisk "min_risk" with
  | some wS, some wM =>
    Except.ok
      { random := randomCloudSection gs R
      , frontier := frontierCurveSection gs R oTgt nP
      , maxSharpe := ⟨List.ofFn wS, calculate_portfolio_metrics wS R⟩
      , minRisk := ⟨List.ofFn wM, calculate_portfolio_metrics wM R⟩ }
  | _, _ => Except.error "unsupported operand type for NoneType"

/-- Successful payload of the `/analyze` route (src/app.py lines 362-373),
restricted to its numeric core: the selected portfolio's weights and
metrics, and the frontier data (the chart dictionaries repeat these same
numbers in presentation form). -/
structure AnalyzeResponse (numStocks : ℕ) where
  weights : Fin numStocks → ℝ
  metrics : Metrics
  frontier : FrontierResult

/-- src/app.py line 256: `returns_df = returns_df[selected_stocks]` — the
column of instrument `j` is the full return series of the j-th selected
symbol. -/
def selectedReturns (selected : List String) (nObs : ℕ)
    (data : String → Fin nObs → ℝ) : Fin nObs → Fin selected.length → ℝ :=
  fun t j => data (selected.get j) t

/-- src/app.py line 264: the raw custom weights looked up per selected
stock, with default 0 — JSON request numbers modelled as rationals. -/
def rawCustomWeights (selected : List String) (wIn : String → ℚ) :
    Fin selected.length → ℚ :=
  fun j => wIn (selected.get j)

/-- src/app.py lines 258-269: the weight-determination branch of the
`/analyze` route.  `max_sharpe` and `min_risk` delegate to
`optimize_portfolio`; `custom` rejects a zero raw sum and otherwise
normalises; every other strategy tag falls to the equal-weight `else`. -/
def analyzeWeights (selected : List String) (wIn : String → ℚ)
    (optimization : String) (oSharpe oMinRisk : SLSQPResult selected.length) :
    Except String (Option (Fin selected.length → ℝ)) :=
  if optimization = "max_sharpe" then
    Except.ok (optimize_portfolio oSharpe oMinRisk "sharpe")
  else if optimization = "min_risk" then
    Except.ok (optimize_portfolio oSharpe oMinRisk "min_risk")
  else if optimization = "custom" then
    if (∑ j, rawCustomWeights selected wIn j) = 0 then
      Except.error "Custom weights must sum to a positive value"
    else
      Except.ok (some fun j =>
        ((rawCustomWeights selected wIn j : ℚ) : ℝ)
          / ((∑ j, rawCustomWeights selected wIn j : ℚ) : ℝ))
  else
    Except.ok (some fun _ => 1 / (selected.length : ℝ))

/-- src/app.py lines 236-378, the `/analyze` route, with data fetching
abstracted into `data` (the aligned return series per symbol over `nObs`
dates) and the solver oracles threaded through.  Mirrors the guard order
of the source: stock-count check, empty-data check, weight determination
(which may reject custom weights), the `weights is None` check, then
metrics and the efficient frontier. -/
def analyze_portfolio (gs : ℕ) (selected : List String) (wIn : String → ℚ)
    (optimization : String) (nObs : ℕ) (data : String → Fin nObs → ℝ)
    (oSharpe oMinRisk : SLSQPResult selected.length)
    (oTgt : ℝ → SLSQPResult selected.length) :
    Except String (AnalyzeResponse selected.length) :=
  if selected.length < 2 then
    Except.error "At least 2 stocks must be selected"
  else if nObs = 0 then
    Except.error "No valid stock data available"
  else
    match analyzeWeights selected wIn optimization oSharpe oMinRisk with
    | Except.error e => Except.error e
    | Except.ok none => Except.error "Optimization failed or invalid optimization type"
    | Except.ok (some w) =>
      match generate_efficient_frontier gs (selectedReturns selected nObs data)
          oSharpe oMinRisk oTgt 50 with
      | Except.error e => Except.error e
      | Except.ok fr =>
        Except.ok
          { weights := w
          , metrics := calculate_portfolio_metrics w (selectedReturns selected nObs data)
          , frontier := fr }

/-- Test fixture: two dates of a constant 1% return for a single instrument. -/
def constReturns : Fin 2 → Fin 1 → ℝ := fun _ _ => 1 / 100

/-- Test fixture: the single-instrument weight vector `[1.0]`. -/
def fullWeight : Fin 1 → ℝ := fun _ => 1

/-- Test fixture: a converged solver outcome at the zero vector. -/
def okSolver (n : ℕ) : SLSQPResult n := ⟨true, fun _ => 0⟩

/-- Test fixture: a converged two-asset solver outcome at the half/half point. -/
def halfSolver : SLSQPResult 2 := ⟨true, fun _ => 1 / 2⟩

/-- Test fixture: a non-converged solver outcome. -/
def failSolver (n : ℕ) : SLSQPResult n := ⟨false, fun _ => 0⟩

/-- Test fixture: one date of zero returns for every symbol. -/
def zeroReturnsData : String → Fin 1 → ℝ := fun _ _ => 0

/-- Test fixture: a two-stock selection. -/
def twoStocks : List String := ["A", "B"]

/-- Test fixture: custom request weights with a negative entry and nonzero sum. -/
def negCustomInput : String → ℚ := fun s => if s = "A" then -1 else if s = "B" then 2 else 0

/-- Test fixture: custom request weights that are all zero. -/
def zeroCustomInput : String → ℚ := fun _ => 0

/-- Test fixture: a one-instrument, one-date return matrix of zeros. -/
def testMatrix11 : Fin 1 → Fin 1 → ℝ := fun _ _ => 0

theorem portfolio_quadform_eq {T n : ℕ} (w : Fin n → ℝ) (R : Fin T → Fin n → ℝ) :
    (∑ i, w i * (∑ j, sampleCov R i j * 252 * w j))
      = ∑ i, ∑ j, w i * (sampleCov R i j * 252) * w j := by
  refine Finset.sum_congr rfl fun i _ => ?_
  rw [Finset.mul_sum]
  exact Finset.sum_congr rfl fun j _ => by ring

/-- C1: `calculate_portfolio_metrics` returns annual return
`sum(mean(column_i) * w_i) * 252 * 100`, annual risk
`sqrt(w^T * (252 * sample covariance) * w) * 100`, and Sharpe ratio
`(annualReturn - riskFreeRate) / annualRisk` with a fixed 6% risk-free
rate, exactly as the spec states them. -/
theorem calculate_metrics_matches_spec {T n : ℕ} (w : Fin n → ℝ)
    (R : Fin T → Fin n → ℝ) :
    (calculate_portfolio_metrics w R).ret = specAnnualReturnPct w R
      ∧ (calculate_portfolio_metrics w R).risk = specAnnualRiskPct w R
      ∧ (calculate_portfolio_metrics w R).sharpe = specSharpe w R := by
  have hrisk : (calculate_portfolio_metrics w R).risk = specAnnualRiskPct w R := by
    show portfolioStd w R * 100 = specAnnualRiskPct w R
    unfold portfolioStd specAnnualRiskPct
    rw [portfolio_quadform_eq]
  refine ⟨rfl, hrisk, ?_⟩
  show (portfolioReturn w R - 0.06) / portfolioStd w R = specSharpe w R
  unfold specSharpe
  have h1 : specAnnualReturnPct w R = portfolioReturn w R * 100 := rfl
  have h2 : specAnnualRiskPct w R = portfolioStd w R * 100 := by
    rw [← hrisk]; rfl
  rw [h1, h2,
    show portfolioReturn w R * 100 - 6 = 100 * (portfolioReturn w R - 0.06) by ring,
    show portfolioStd w R * 100 = 100 * portfolioStd w R by ring,
    mul_div_mul_left _ _ (by norm_num : (100 : ℝ) ≠ 0)]

/-- C7: the risk reported by `calculate_portfolio_metrics` is always
non-negative, being a real square root scaled by 100. -/
theorem metrics_risk_nonneg {T n : ℕ} (w : Fin n → ℝ) (R : Fin T → Fin n → ℝ) :
    0 ≤ (calculate_portfolio_metrics w R).risk :=
  mul_nonneg (Real.sqrt_nonneg _) (by norm_num)

/-- C2: whenever the SLSQP oracle honours the constraints it was handed
(the sum-to-one equality within the 1e-6 tolerance and the unit-interval
bounds, src/app.py lines 117-118), any weight vector that
`optimize_portfolio` returns — for either objective — sums to 1 within
1e-6 and has every component in [0, 1], because the code returns the
solver's point unmodified. -/
theorem optimizer_output_respects_simplex {n : ℕ} (oS oM : SLSQPResult n)
    (optimization_type : String) (w : Fin n → ℝ)
    (hS : MeetsSLSQPConstraints oS) (hM : MeetsSLSQPConstraints oM)
    (hw : optimize_portfolio oS oM optimization_type = some w) :
    |(∑ i, w i) - 1| ≤ 1e-6 ∧ ∀ i, 0 ≤ w i ∧ w i ≤ 1 := by
  unfold optimize_portfolio at hw
  by_cases h1 : optimization_type = "sharpe"
  · rw [if_pos h1] at hw
    by_cases hs : oS.success = true
    · rw [if_pos hs] at hw
      obtain rfl : oS.x = w := Option.some.inj hw
      obtain ⟨hsum, hbnd⟩ := hS hs
      exact ⟨by simpa [sumConstraintFun] using hsum, hbnd⟩
    · rw [if_neg hs] at hw
      simp at hw
  · rw [if_neg h1] at hw
    by_cases h2 : optimization_type = "min_risk"
    · rw [if_pos h2] at hw
      by_cases hm : oM.success = true
      · rw [if_pos hm] at hw
        obtain rfl : oM.x = w := Option.some.inj hw
        obtain ⟨hsum, hbnd⟩ := hM hm
        exact ⟨by simpa [sumConstraintFun] using hsum, hbnd⟩
      · rw [if_neg hm] at hw
        simp at hw
    · rw [if_neg h2] at hw
      simp at hw

theorem halfSolver_meets_constraints : MeetsSLSQPConstraints halfSolver := by
  intro _
  constructor
  · simp only [sumConstraintFun, halfSolver, Fin.sum_univ_two]
    norm_num
  · intro i
    constructor <;> norm_num [halfSolver]

theorem optimizer_output_respects_simplex_witness :
    |(∑ i, halfSolver.x i) - 1| ≤ 1e-6
      ∧ ∀ i, 0 ≤ halfSolver.x i ∧ halfSolver.x i ≤ 1 :=
  optimizer_output_respects_simplex halfSolver halfSolver "sharpe" halfSolver.x
    halfSolver_meets_constraints halfSolver_meets_constraints rfl

theorem constReturns_std_zero : portfolioStd fullWeight constReturns = 0 := by
  have harg :
      (∑ i, fullWeight i * (∑ j, sampleCov constReturns i j * 252 * fullWeight j)) = 0 := by
    simp only [Fin.sum_univ_one, sampleCov, colMean, constReturns, fullWeight,
      Fin.sum_univ_two]
    norm_num
  rw [portfolioStd, harg, Real.sqrt_zero]

theorem constReturns_return_value : portfolioReturn fullWeight constReturns = 252 / 100 := by
  simp only [portfolioReturn, colMean, constReturns, fullWeight, Fin.sum_univ_one,
    Fin.sum_univ_two]
  norm_num

/-- C4 counterexample: on the single-instrument weight `[1.0]` against a
constant return series, `calculate_portfolio_metrics` does not signal any
error — it returns the ordinary record with annual risk 0 (and the Sharpe
entry computed by the unguarded division by that zero risk, which the
real-valued embedding maps to 0 and Python floating point to inf/NaN).
The source contains no `DegenerateRiskError` and no zero-risk check. -/
theorem degenerate_risk_no_error_counterexample :
    (calculate_portfolio_metrics fullWeight constReturns).risk = 0
      ∧ calculate_portfolio_metrics fullWeight constReturns = ⟨252, 0, 0⟩ := by
  constructor
  · show portfolioStd fullWeight constReturns * 100 = 0
    rw [constReturns_std_zero]; ring
  · show (⟨portfolioReturn fullWeight constReturns * 100,
        portfolioStd fullWeight constReturns * 100,
        (portfolioReturn fullWeight constReturns - 0.06)
          / portfolioStd fullWeight constReturns⟩ : Metrics) = ⟨252, 0, 0⟩
    rw [constReturns_std_zero, constReturns_return_value]
    norm_num [Metrics.mk.injEq]

/-- C4 (amended): whenever the annualised risk is zero,
`calculate_portfolio_metrics` still returns a normal metrics record — risk
0 and a Sharpe value produced by the unguarded division by zero (0 under
the real-valued division convention, inf/NaN in Python floats) — instead
of signalling a `DegenerateRiskError`, which does not exist in the code. -/
theorem degenerate_risk_returns_record {T n : ℕ} (w : Fin n → ℝ)
    (R : Fin T → Fin n → ℝ) (h : portfolioStd w R = 0) :
    (calculate_portfolio_metrics w R).risk = 0
      ∧ (calculate_portfolio_metrics w R).sharpe = 0 := by
  constructor
  · show portfolioStd w R * 100 = 0
    rw [h]; ring
  · show (portfolioReturn w R - 0.06) / portfolioStd w R = 0
    rw [h, div_zero]

theorem degenerate_risk_returns_record_witness :
    (calculate_portfolio_metrics fullWeight constReturns).risk = 0
      ∧ (calculate_portfolio_metrics fullWeight constReturns).sharpe = 0 :=
  degenerate_risk_returns_record fullWeight constReturns constReturns_std_zero

/-- C8: `generate_efficient_frontier` calls `np.random.seed(42)` before
drawing the cloud, so its entire output — in particular the random cloud
and every cloud weight vector — is independent of the incoming global
generator state: two invocations with the same return matrix produce
identical results element for element. -/
theorem frontier_cloud_seed_reproducible (gs1 gs2 : ℕ) {T n : ℕ}
    (R : Fin T → Fin n → ℝ) (oS oM : SLSQPResult n) (oTgt : ℝ → SLSQPResult n)
    (nP : ℕ) :
    generate_efficient_frontier gs1 R oS oM oTgt nP
        = generate_efficient_frontier gs2 R oS oM oTgt nP
      ∧ randomCloudSection gs1 R = randomCloudSection gs2 R
      ∧ ∀ i : ℕ, ∀ j : Fin n, cloudWeight gs1 n i j = cloudWeight gs2 n i j :=
  ⟨rfl, rfl, fun _ _ => rfl⟩

theorem lcg_lt (s : ℕ) : lcg s < 4294967296 :=
  Nat.mod_lt _ (by norm_num)

/-- C10: every random-cloud portfolio of `generate_efficient_frontier` is
drawn componentwise from `[0, 1)` and divided by its own sum, so as long
as that sum is positive the resulting weight vector sums to exactly 1 and
has only non-negative components. -/
theorem cloud_weights_normalized (gs n i : ℕ)
    (h : 0 < ∑ j : Fin n, cloudDraw gs n i j.1) :
    (∀ j : Fin n, 0 ≤ cloudDraw gs n i j.1 ∧ cloudDraw gs n i j.1 < 1)
      ∧ (∑ j, cloudWeight gs n i j) = 1
      ∧ ∀ j, 0 ≤ cloudWeight gs n i j := by
  have hnonneg : ∀ j : Fin n, (0 : ℝ) ≤ cloudDraw gs n i j.1 := fun j =>
    div_nonneg (Nat.cast_nonneg _) (by norm_num)
  have hlt : ∀ j : Fin n, cloudDraw gs n i j.1 < 1 := by
    intro j
    unfold cloudDraw
    rw [div_lt_one (by norm_num)]
    have hb : lcg^[i * n + j.1 + 1] (seedReset 42 gs) < 4294967296 := by
      rw [Function.iterate_succ_apply']
      exact lcg_lt _
    exact_mod_cast hb
  refine ⟨fun j => ⟨hnonneg j, hlt j⟩, ?_, ?_⟩
  · unfold cloudWeight
    rw [← Finset.sum_div, div_self (ne_of_gt h)]
  · intro j
    exact div_nonneg (hnonneg j) (le_of_lt h)

theorem generate_ok {T n : ℕ} (gs : ℕ) (R : Fin T → Fin n → ℝ)
    (oS oM : SLSQPResult n) (oTgt : ℝ → SLSQPResult n) (nP : ℕ)
    (hS : oS.success = true) (hM : oM.success = true) :
    generate_efficient_frontier gs R oS oM oTgt nP = Except.ok
      ⟨randomCloudSection gs R, frontierCurveSection gs R oTgt nP,
        ⟨List.ofFn oS.x, calculate_portfolio_metrics oS.x R⟩,
        ⟨List.ofFn oM.x, calculate_portfolio_metrics oM.x R⟩⟩ := by
  have hSx : optimize_portfolio oS oM "sharpe" = some oS.x := by
    unfold optimize_portfolio
    rw [if_pos rfl, if_pos hS]
  have hMx : optimize_portfolio oS oM "min_risk" = some oM.x := by
    unfold optimize_portfolio
    rw [if_neg (by decide), if_pos rfl, if_pos hM]
  unfold generate_efficient_frontier
  rw [hSx, hMx]

theorem cloudMin_le_cloudMax (gs : ℕ) {T n : ℕ} (R : Fin T → Fin n → ℝ) :
    cloudMinReturn gs R ≤ cloudMaxReturn gs R := by
  unfold cloudMinReturn cloudMaxReturn
  exact le_trans
    (Finset.inf'_le (fun i : Fin 1000 => (cloudMetricsAt gs R i.1).ret)
      (Finset.mem_univ (0 : Fin 1000)))
    (Finset.le_sup' (fun i : Fin 1000 => (cloudMetricsAt gs R i.1).ret)
      (Finset.mem_univ (0 : Fin 1000)))

/-- C3: whenever the two anchor solves converge (so the call completes at
all), the frontier curve has exactly `nP` target returns and exactly `nP`
risk entries; the k-th risk entry is `none` precisely when the constrained
solve at the k-th target did not converge (infeasible targets are recorded,
not omitted); the targets are the `linspace` points, weakly increasing in
k, starting at the minimum and (for `nP ≥ 2`) ending at the maximum return
of the random cloud. -/
theorem frontier_curve_shape (gs : ℕ) {T n : ℕ} (R : Fin T → Fin n → ℝ)
    (oS oM : SLSQPResult n) (oTgt : ℝ → SLSQPResult n) (nP : ℕ)
    (hS : oS.success = true) (hM : oM.success = true) (hnP : 2 ≤ nP) :
    ∃ res, generate_efficient_frontier gs R oS oM oTgt nP = Except.ok res
      ∧ res.frontier.returns.length = nP
      ∧ res.frontier.risks.length = nP
      ∧ (∀ k, k < nP → res.frontier.returns.getD k 0 = frontierTarget gs R nP k)
      ∧ (∀ k, k < nP → (res.frontier.risks.getD k (some 0) = none
          ↔ (oTgt (frontierTarget gs R nP k)).success = false))
      ∧ (∀ k l, k ≤ l → frontierTarget gs R nP k ≤ frontierTarget gs R nP l)
      ∧ frontierTarget gs R nP 0 = cloudMinReturn gs R
      ∧ frontierTarget gs R nP (nP - 1) = cloudMaxReturn gs R := by
  refine ⟨_, generate_ok gs R oS oM oTgt nP hS hM, ?_, ?_, ?_, ?_, ?_, ?_, ?_⟩
  · show (frontierCurveSection gs R oTgt nP).returns.length = nP
    simp [frontierCurveSection]
  · show (frontierCurveSection gs R oTgt nP).risks.length = nP
    simp [frontierCurveSection]
  · intro k hk
    show ((List.range nP).map fun k => frontierTarget gs R nP k).getD k 0
        = frontierTarget gs R nP k
    rw [List.getD_eq_getElem?_getD, List.getElem?_map, List.getElem?_range hk]
    rfl
  · intro k hk
    show (((List.range nP).map fun k =>
        if (oTgt (frontierTarget gs R nP k)).success then
          some (calculate_portfolio_metrics (oTgt (frontierTarget gs R nP k)).x R).risk
        else none).getD k (some 0) = none
      ↔ (oTgt (frontierTarget gs R nP k)).success = false)
    rw [List.getD_eq_getElem?_getD, List.getElem?_map, List.getElem?_range hk]
    cases hb : (oTgt (frontierTarget gs R nP k)).success <;> simp [hb]
  · intro k l hkl
    unfold frontierTarget
    have hstep : 0 ≤ (cloudMaxReturn gs R - cloudMinReturn gs R) / ((nP : ℝ) - 1) := by
      apply div_nonneg
      · have := cloudMin_le_cloudMax gs R
        linarith
      · have h1 : (2 : ℝ) ≤ (nP : ℝ) := by exact_mod_cast hnP
        linarith
    have hk : (k : ℝ) ≤ (l : ℝ) := Nat.cast_le.mpr hkl
    have := mul_le_mul_of_nonneg_right hk hstep
    linarith
  · unfold frontierTarget
    simp
  · have h1 : (1 : ℕ) ≤ nP := le_trans (by norm_num) hnP
    have hcast : ((nP - 1 : ℕ) : ℝ) = (nP : ℝ) - 1 := by
      push_cast [h1]
      ring
    have hne : ((nP : ℝ) - 1) ≠ 0 := by
      have h2 : (2 : ℝ) ≤ (nP : ℝ) := by exact_mod_cast hnP
      intro hc
      rw [sub_eq_zero] at hc
      rw [hc] at h2
      norm_num at h2
    unfold frontierTarget
    rw [hcast]
    field_simp

theorem frontier_curve_shape_witness :
    ∃ res, generate_efficient_frontier 0 testMatrix11 (okSolver 1) (okSolver 1)
        (fun _ => okSolver 1) 2 = Except.ok res
      ∧ res.frontier.returns.length = 2
      ∧ res.frontier.risks.length = 2
      ∧ (∀ k, k < 2 → res.frontier.returns.getD k 0 = frontierTarget 0 testMatrix11 2 k)
      ∧ (∀ k, k < 2 → (res.frontier.risks.getD k (some 0) = none
          ↔ ((fun _ : ℝ => okSolver 1) (frontierTarget 0 testMatrix11 2 k)).success = false))
      ∧ (∀ k l, k ≤ l → frontierTarget 0 testMatrix11 2 k ≤ frontierTarget 0 testMatrix11 2 l)
      ∧ frontierTarget 0 testMatrix11 2 0 = cloudMinReturn 0 testMatrix11
      ∧ frontierTarget 0 testMatrix11 2 (2 - 1) = cloudMaxReturn 0 testMatrix11 :=
  frontier_curve_shape 0 testMatrix11 (okSolver 1) (okSolver 1)
    (fun _ => okSolver 1) 2 rfl rfl (by norm_num)

theorem cloud_weights_normalized_witness :
    (∀ j : Fin 1, 0 ≤ cloudDraw 0 1 0 j.1 ∧ cloudDraw 0 1 0 j.1 < 1)
      ∧ (∑ j, cloudWeight 0 1 0 j) = 1
      ∧ ∀ j, 0 ≤ cloudWeight 0 1 0 j :=
  cloud_weights_normalized 0 1 0 (by
    simp only [Fin.sum_univ_one]
    unfold cloudDraw seedReset
    norm_num [lcg, Function.iterate_one])

/-- C5 counterexample: on solver non-convergence `optimize_portfolio`
returns `None` (not a typed error), and the `/analyze` route surfaces the
fixed message `Optimization failed or invalid optimization type` — the
very same value for the `max_sharpe` and the `min_risk` objectives, so the
surfaced error carries no objective name, contrary to the claimed
`OptimizationFailedError` with the objective name. -/
theorem optimization_failure_generic_error_counterexample :
    optimize_portfolio (failSolver 2) (failSolver 2) "sharpe" = none
      ∧ analyze_portfolio 0 twoStocks zeroCustomInput "max_sharpe" 1 zeroReturnsData
          (failSolver 2) (failSolver 2) (fun _ => failSolver 2)
          = Except.error "Optimization failed or invalid optimization type"
      ∧ analyze_portfolio 0 twoStocks zeroCustomInput "min_risk" 1 zeroReturnsData
          (failSolver 2) (failSolver 2) (fun _ => failSolver 2)
          = Except.error "Optimization failed or invalid optimization type" :=
  ⟨rfl, rfl, rfl⟩

/-- C5 (amended): on solver non-convergence `optimize_portfolio` returns
`None` — never a silent equal-weight fallback — and `analyze_portfolio`
surfaces this as the fixed, objective-independent error message
`Optimization failed or invalid optimization type` rather than a typed
`OptimizationFailedError` carrying the objective name. -/
theorem optimization_failure_surfaces_generic_error (gs : ℕ)
    (selected : List String) (wIn : String → ℚ) (nObs : ℕ)
    (data : String → Fin nObs → ℝ) (oS oM : SLSQPResult selected.length)
    (oTgt : ℝ → SLSQPResult selected.length)
    (hlen : ¬ selected.length < 2) (hObs : nObs ≠ 0) :
    (oS.success = false →
        optimize_portfolio oS oM "sharpe" = none
        ∧ analyze_portfolio gs selected wIn "max_sharpe" nObs data oS oM oTgt
            = Except.error "Optimization failed or invalid optimization type")
    ∧ (oM.success = false →
        optimize_portfolio oS oM "min_risk" = none
        ∧ analyze_portfolio gs selected wIn "min_risk" nObs data oS oM oTgt
            = Except.error "Optimization failed or invalid optimization type") := by
  constructor
  · intro hf
    have hnone : optimize_portfolio oS oM "sharpe" = none := by
      unfold optimize_portfolio
      rw [if_pos rfl, if_neg (by simp [hf])]
    refine ⟨hnone, ?_⟩
    have hw : analyzeWeights selected wIn "max_sharpe" oS oM = Except.ok none := by
      unfold analyzeWeights
      rw [if_pos rfl, hnone]
    unfold analyze_portfolio
    rw [if_neg hlen, if_neg hObs, hw]
  · intro hf
    have hnone : optimize_portfolio oS oM "min_risk" = none := by
      unfold optimize_portfolio
      rw [if_neg (by decide), if_pos rfl, if_neg (by simp [hf])]
    refine ⟨hnone, ?_⟩
    have hw : analyzeWeights selected wIn "min_risk" oS oM = Except.ok none := by
      unfold analyzeWeights
      rw [if_neg (by decide), if_pos rfl, hnone]
    unfold analyze_portfolio
    rw [if_neg hlen, if_neg hObs, hw]

theorem optimization_failure_surfaces_generic_error_witness :
    ((failSolver 2).success = false →
        optimize_portfolio (failSolver 2) (failSolver 2) "sharpe" = none
        ∧ analyze_portfolio 0 twoStocks zeroCustomInput "max_sharpe" 1 zeroReturnsData
            (failSolver 2) (failSolver 2) (fun _ => failSolver 2)
            = Except.error "Optimization failed or invalid optimization type")
    ∧ ((failSolver 2).success = false →
        optimize_portfolio (failSolver 2) (failSolver 2) "min_risk" = none
        ∧ analyze_portfolio 0 twoStocks zeroCustomInput "min_risk" 1 zeroReturnsData
            (failSolver 2) (failSolver 2) (fun _ => failSolver 2)
            = Except.error "Optimization failed or invalid optimization type") :=
  optimization_failure_surfaces_generic_error 0 twoStocks zeroCustomInput 1
    zeroReturnsData (failSolver 2) (failSolver 2) (fun _ => failSolver 2)
    (by decide) (by decide)

theorem analyze_custom_ok (gs : ℕ) (selected : List String) (wIn : String → ℚ)
    (nObs : ℕ) (data : String → Fin nObs → ℝ)
    (oS oM : SLSQPResult selected.length) (oTgt : ℝ → SLSQPResult selected.length)
    (hlen : ¬ selected.length < 2) (hObs : nObs ≠ 0)
    (hS : oS.success = true) (hM : oM.success = true)
    (hne : (∑ j, rawCustomWeights selected wIn j) ≠ 0) :
    ∃ r, analyze_portfolio gs selected wIn "custom" nObs data oS oM oTgt
        = Except.ok r
      ∧ r.weights = fun j => ((rawCustomWeights selected wIn j : ℚ) : ℝ)
          / ((∑ j, rawCustomWeights selected wIn j : ℚ) : ℝ) := by
  have hw : analyzeWeights selected wIn "custom" oS oM
      = Except.ok (some fun j => ((rawCustomWeights selected wIn j : ℚ) : ℝ)
          / ((∑ j, rawCustomWeights selected wIn j : ℚ) : ℝ)) := by
    unfold analyzeWeights
    rw [if_neg (by decide), if_neg (by decide), if_pos rfl, if_neg hne]
  refine ⟨⟨fun j => ((rawCustomWeights selected wIn j : ℚ) : ℝ)
        / ((∑ j, rawCustomWeights selected wIn j : ℚ) : ℝ),
      calculate_portfolio_metrics
        (fun j => ((rawCustomWeights selected wIn j : ℚ) : ℝ)
          / ((∑ j, rawCustomWeights selected wIn j : ℚ) : ℝ))
        (selectedReturns selected nObs data),
      ⟨randomCloudSection gs (selectedReturns selected nObs data),
        frontierCurveSection gs (selectedReturns selected nObs data) oTgt 50,
        ⟨List.ofFn oS.x,
          calculate_portfolio_metrics oS.x (selectedReturns selected nObs data)⟩,
        ⟨List.ofFn oM.x,
          calculate_portfolio_metrics oM.x (selectedReturns selected nObs data)⟩⟩⟩,
    ?_, rfl⟩
  unfold analyze_portfolio
  rw [if_neg hlen, if_neg hObs, hw,
    generate_ok gs (selectedReturns selected nObs data) oS oM oTgt 50 hS hM]

/-- C6 counterexample: with the custom strategy and raw weights
`{A: -1, B: 2}` — which contain a negative value but sum to 1 — the
`/analyze` route does not reject the request: it proceeds to the metrics
and frontier computation and returns a successful response whose weight
vector is `[-1, 2]`, still containing the negative entry.  The code checks
only `np.sum(weights) == 0` and never checks for negative values. -/
theorem negative_custom_weights_accepted_counterexample :
    (analyze_portfolio 0 twoStocks negCustomInput "custom" 1 zeroReturnsData
        (okSolver 2) (okSolver 2) (fun _ => okSolver 2)).toOption.map
      (fun r => List.ofFn r.weights) = some [-1, 2] := by
  have hA : rawCustomWeights twoStocks negCustomInput (0 : Fin 2) = -1 := rfl
  have hB : rawCustomWeights twoStocks negCustomInput (1 : Fin 2) = 2 := rfl
  have hsum : (∑ j, rawCustomWeights twoStocks negCustomInput j) = 1 := by
    show (∑ j : Fin 2, rawCustomWeights twoStocks negCustomInput j) = 1
    simp only [Fin.sum_univ_two]
    rw [hA, hB]
    norm_num
  have hne : (∑ j, rawCustomWeights twoStocks negCustomInput j) ≠ 0 := by
    rw [hsum]; exact one_ne_zero
  obtain ⟨r, hr, hwts⟩ := analyze_custom_ok 0 twoStocks negCustomInput 1
    zeroReturnsData (okSolver 2) (okSolver 2) (fun _ => okSolver 2)
    (by decide) (by decide) rfl rfl hne
  rw [hr]
  show some (List.ofFn r.weights) = some [-1, 2]
  rw [hwts, hsum]
  show some [((rawCustomWeights twoStocks negCustomInput (0 : Fin 2) : ℚ) : ℝ)
      / ((1 : ℚ) : ℝ),
    ((rawCustomWeights twoStocks negCustomInput (1 : Fin 2) : ℚ) : ℝ)
      / ((1 : ℚ) : ℝ)] = some [-1, 2]
  rw [hA, hB]
  norm_num

/-- C6 (amended): the custom-strategy request is rejected — with the
message `Custom weights must sum to a positive value`, before the
optimizer or metrics run — exactly when the raw weights over the selected
instruments sum to zero; negative entries are not checked, and any request
with a nonzero raw sum (negative entries included) is accepted and
normalised so that the resulting weights sum to 1. -/
theorem custom_weights_zero_sum_check (gs : ℕ) (selected : List String)
    (wIn : String → ℚ) (nObs : ℕ) (data : String → Fin nObs → ℝ)
    (oS oM : SLSQPResult selected.length) (oTgt : ℝ → SLSQPResult selected.length)
    (hlen : ¬ selected.length < 2) (hObs : nObs ≠ 0)
    (hS : oS.success = true) (hM : oM.success = true) :
    ((∑ j, rawCustomWeights selected wIn j) = 0 →
        analyze_portfolio gs selected wIn "custom" nObs data oS oM oTgt
          = Except.error "Custom weights must sum to a positive value")
    ∧ ((∑ j, rawCustomWeights selected wIn j) ≠ 0 →
        ∃ r, analyze_portfolio gs selected wIn "custom" nObs data oS oM oTgt
            = Except.ok r
          ∧ (∑ j, r.weights j) = 1) := by
  constructor
  · intro h0
    have hw : analyzeWeights selected wIn "custom" oS oM
        = Except.error "Custom weights must sum to a positive value" := by
      unfold analyzeWeights
      rw [if_neg (by decide), if_neg (by decide), if_pos rfl, if_pos h0]
    unfold analyze_portfolio
    rw [if_neg hlen, if_neg hObs, hw]
  · intro hne
    obtain ⟨r, hr, hwts⟩ := analyze_custom_ok gs selected wIn nObs data oS oM oTgt
      hlen hObs hS hM hne
    refine ⟨r, hr, ?_⟩
    have hcast : ((∑ j, rawCustomWeights selected wIn j : ℚ) : ℝ) ≠ 0 :=
      Rat.cast_ne_zero.mpr hne
    rw [hwts, ← Finset.sum_div,
      show (∑ j, (((rawCustomWeights selected wIn j) : ℚ) : ℝ))
          = ((∑ j, rawCustomWeights selected wIn j : ℚ) : ℝ) by push_cast; rfl]
    exact div_self hcast

theorem custom_weights_zero_sum_check_witness :
    ((∑ j, rawCustomWeights twoStocks negCustomInput j) = 0 →
        analyze_portfolio 0 twoStocks negCustomInput "custom" 1 zeroReturnsData
          (okSolver 2) (okSolver 2) (fun _ => okSolver 2)
          = Except.error "Custom weights must sum to a positive value")
    ∧ ((∑ j, rawCustomWeights twoStocks negCustomInput j) ≠ 0 →
        ∃ r, analyze_portfolio 0 twoStocks negCustomInput "custom" 1 zeroReturnsData
            (okSolver 2) (okSolver 2) (fun _ => okSolver 2) = Except.ok r
          ∧ (∑ j, r.weights j) = 1) :=
  custom_weights_zero_sum_check 0 twoStocks negCustomInput 1 zeroReturnsData
    (okSolver 2) (okSolver 2) (fun _ => okSolver 2) (by decide) (by decide) rfl rfl

/-- C9: any optimization strategy tag other than `max_sharpe`, `min_risk`
and `custom` — misspellings included — silently falls into the
equal-weight `else` branch: the request succeeds and the selected
portfolio is `1/N` per selected instrument, with no rejection of the
unknown tag. -/
theorem unknown_strategy_equal_weights (gs : ℕ) (selected : List String)
    (wIn : String → ℚ) (optimization : String) (nObs : ℕ)
    (data : String → Fin nObs → ℝ) (oS oM : SLSQPResult selected.length)
    (oTgt : ℝ → SLSQPResult selected.length)
    (hlen : ¬ selected.length < 2) (hObs : nObs ≠ 0)
    (h1 : optimization ≠ "max_sharpe") (h2 : optimization ≠ "min_risk")
    (h3 : optimization ≠ "custom")
    (hS : oS.success = true) (hM : oM.success = true) :
    ∃ r, analyze_portfolio gs selected wIn optimization nObs data oS oM oTgt
        = Except.ok r
      ∧ r.weights = fun _ => 1 / (selected.length : ℝ) := by
  have hw : analyzeWeights selected wIn optimization oS oM
      = Except.ok (some fun _ => 1 / (selected.length : ℝ)) := by
    unfold analyzeWeights
    rw [if_neg h1, if_neg h2, if_neg h3]
  refine ⟨⟨fun _ => 1 / (selected.length : ℝ),
      calculate_portfolio_metrics (fun _ => 1 / (selected.length : ℝ))
        (selectedReturns selected nObs data),
      ⟨randomCloudSection gs (selectedReturns selected nObs data),
        frontierCurveSection gs (selectedReturns selected nObs data) oTgt 50,
        ⟨List.ofFn oS.x,
          calculate_portfolio_metrics oS.x (selectedReturns selected nObs data)⟩,
        ⟨List.ofFn oM.x,
          calculate_portfolio_metrics oM.x (selectedReturns selected nObs data)⟩⟩⟩,
    ?_, rfl⟩
  unfold analyze_portfolio
  rw [if_neg hlen, if_neg hObs, hw,
    generate_ok gs (selectedReturns selected nObs data) oS oM oTgt 50 hS hM]

theorem unknown_strategy_equal_weights_witness :
    ∃ r, analyze_portfolio 0 twoStocks zeroCustomInput "maxsharpe" 1 zeroReturnsData
        (okSolver 2) (okSolver 2) (fun _ => okSolver 2) = Except.ok r
      ∧ r.weights = fun _ => 1 / (twoStocks.length : ℝ) :=
  unknown_strategy_equal_weights 0 twoStocks zeroCustomInput "maxsharpe" 1
    zeroReturnsData (okSolver 2) (okSolver 2) (fun _ => okSolver 2)
    (by decide) (by decide) (by decide) (by decide) (by decide) rfl rfl

end
